import Mathlib

/-!
Shallow embedding of the ROI / mortgage calculator of `src/about-script.js`
(class `InvestmentCalculator`).  JavaScript numbers are modelled as rationals
(`ℚ`): the source performs only field arithmetic and `Math.pow` with the
natural exponent `years * 12`, so every intermediate value is an exact
rational; division by zero is the junk value `0` as usual in Lean, and every
division the code performs on a validated input is shown to have a nonzero
divisor.  `parseFloat` results are modelled as `Option ℚ` (`none` = NaN) and
the JavaScript `x || d` defaulting, which treats both NaN and `0` as absent,
is modelled by `jsOrDefault`.
-/

namespace InvestmentCalculator

/-- The qualitative grades produced by `getInvestmentGrade`
(`src/about-script.js`, lines 1658-1664). -/
inductive Grade where
  | poorNegativeCashFlow
  | excellent
  | good
  | fair
  | belowAverage
deriving DecidableEq, Repr

/-- The single error kind of the engine: `calculateROI` shows
"Please enter valid property price and monthly rent." and returns early. -/
inductive CalcError where
  | invalidInput
deriving DecidableEq, Repr

/-- The metrics computed by `calculateROI` (the local constants of
`src/about-script.js`, lines 1566-1582, plus the grade displayed in the
summary).  The rendering layer only formats these values. -/
structure CalculatorResult where
  downPayment : ℚ
  loanAmount : ℚ
  monthlyMortgage : ℚ
  monthlyExpenses : ℚ
  monthlyCashFlow : ℚ
  annualCashFlow : ℚ
  cashOnCashReturn : ℚ
  capRate : ℚ
  onePercentRule : ℚ
  grade : Grade
deriving DecidableEq, Repr

/-- `calculateMortgagePayment(principal, annualRate, years)` of
`src/about-script.js`, lines 1643-1656.  The source only ever calls it with
the integer `years = 30`, and `Math.pow` is taken at the natural exponent
`numPayments = years * 12`. -/
def calculateMortgagePayment (principal annualRate : ℚ) (years : ℕ) : ℚ :=
  let monthlyRate := annualRate / 12
  let numPayments := years * 12
  if monthlyRate = 0 then
    principal / (numPayments : ℚ)
  else
    principal * (monthlyRate * (1 + monthlyRate) ^ numPayments) /
      ((1 + monthlyRate) ^ numPayments - 1)

/-- `getInvestmentGrade(cashOnCashReturn, capRate, monthlyCashFlow)` of
`src/about-script.js`, lines 1658-1664: an ordered chain of early returns. -/
def getInvestmentGrade (cashOnCashReturn capRate monthlyCashFlow : ℚ) : Grade :=
  if monthlyCashFlow < 0 then .poorNegativeCashFlow
  else if 12 ≤ cashOnCashReturn ∧ 8 ≤ capRate then .excellent
  else if 8 ≤ cashOnCashReturn ∧ 6 ≤ capRate then .good
  else if 5 ≤ cashOnCashReturn ∧ 4 ≤ capRate then .fair
  else .belowAverage

/-- Modelled from the spec: the grading table of section 4.1, written from the
spec's words for comparison with `getInvestmentGrade` (the code's chain). -/
def gradeInvestmentSpec (coc capRate cashFlow : ℚ) : Grade :=
  if cashFlow < 0 then .poorNegativeCashFlow
  else if coc ≥ 12 ∧ capRate ≥ 8 then .excellent
  else if coc ≥ 8 ∧ capRate ≥ 6 then .good
  else if coc ≥ 5 ∧ capRate ≥ 4 then .fair
  else .belowAverage

/-- The computational core of `calculateROI` of `src/about-script.js`,
lines 1558-1636: validation, the metric constants of lines 1566-1582 and the
grade of the summary block, returned as a structured value (the DOM rendering
of `showResult` is outside the engine). -/
def calculateROI (propertyPrice downPaymentPercent monthlyRent : ℚ) :
    Except CalcError CalculatorResult :=
  if propertyPrice ≤ 0 ∨ monthlyRent ≤ 0 then
    .error .invalidInput
  else
    let downPayment := propertyPrice * (downPaymentPercent / 100)
    let loanAmount := propertyPrice - downPayment
    let monthlyMortgage := calculateMortgagePayment loanAmount 0.065 30
    let monthlyExpenses := propertyPrice * 0.01 / 12
    let monthlyCashFlow := monthlyRent - monthlyMortgage - monthlyExpenses
    let annualCashFlow := monthlyCashFlow * 12
    let cashOnCashReturn :=
      if 0 < downPayment then annualCashFlow / downPayment * 100 else 0
    let capRate := (monthlyRent * 12 - propertyPrice * 0.01) / propertyPrice * 100
    let onePercentRule := monthlyRent / propertyPrice * 100
    .ok
      { downPayment := downPayment
        loanAmount := loanAmount
        monthlyMortgage := monthlyMortgage
        monthlyExpenses := monthlyExpenses
        monthlyCashFlow := monthlyCashFlow
        annualCashFlow := annualCashFlow
        cashOnCashReturn := cashOnCashReturn
        capRate := capRate
        onePercentRule := onePercentRule
        grade := getInvestmentGrade cashOnCashReturn capRate monthlyCashFlow }

/-- JavaScript `x || d` on a `parseFloat` result (`none` models NaN): both a
missing and a zero value fall back to the default. -/
def jsOrDefault (x : Option ℚ) (d : ℚ) : ℚ :=
  match x with
  | none => d
  | some v => if v = 0 then d else v

/-- `calculateROI` including the input parsing of `src/about-script.js`,
lines 1551-1556: `parseFloat(...) || 0` for price and rent,
`parseFloat(...) || 20` for the down-payment percent. -/
def calculateROIRaw (priceRaw dppRaw rentRaw : Option ℚ) :
    Except CalcError CalculatorResult :=
  calculateROI (jsOrDefault priceRaw 0) (jsOrDefault dppRaw 20) (jsOrDefault rentRaw 0)

/-- Evaluation of `calculateROI` on a validated input: the `Except.ok` branch
spelled out.  Shared by the claim theorems below. -/
theorem calculateROI_pos (p d m : ℚ) (hp : 0 < p) (hm : 0 < m) :
    calculateROI p d m = Except.ok
      { downPayment := p * (d / 100)
        loanAmount := p - p * (d / 100)
        monthlyMortgage := calculateMortgagePayment (p - p * (d / 100)) 0.065 30
        monthlyExpenses := p * 0.01 / 12
        monthlyCashFlow :=
          m - calculateMortgagePayment (p - p * (d / 100)) 0.065 30 - p * 0.01 / 12
        annualCashFlow :=
          (m - calculateMortgagePayment (p - p * (d / 100)) 0.065 30 - p * 0.01 / 12) * 12
        cashOnCashReturn :=
          if 0 < p * (d / 100) then
            (m - calculateMortgagePayment (p - p * (d / 100)) 0.065 30 - p * 0.01 / 12) * 12 /
                (p * (d / 100)) * 100
          else 0
        capRate := (m * 12 - p * 0.01) / p * 100
        onePercentRule := m / p * 100
        grade :=
          getInvestmentGrade
            (if 0 < p * (d / 100) then
              (m - calculateMortgagePayment (p - p * (d / 100)) 0.065 30 - p * 0.01 / 12) * 12 /
                  (p * (d / 100)) * 100
            else 0)
            ((m * 12 - p * 0.01) / p * 100)
            (m - calculateMortgagePayment (p - p * (d / 100)) 0.065 30 - p * 0.01 / 12) } := by
  unfold calculateROI
  rw [if_neg (by push_neg; exact ⟨hp, hm⟩)]

/-- C1: whenever `propertyPrice <= 0` or `monthlyRent <= 0`, `calculateROI`
signals the invalid-input error and produces no result fields: the error
constructor carries no `CalculatorResult`, the computation returns before any
metric is computed. -/
theorem calculateROI_invalid (p d m : ℚ) (h : p ≤ 0 ∨ m ≤ 0) :
    calculateROI p d m = Except.error CalcError.invalidInput := by
  unfold calculateROI
  rw [if_pos h]

/-- Witness for C1 at `propertyPrice = 0`. -/
theorem calculateROI_invalid_witness :
    ((0 : ℚ) ≤ 0 ∨ (1000 : ℚ) ≤ 0) ∧
      calculateROI 0 20 1000 = Except.error CalcError.invalidInput :=
  ⟨Or.inl le_rfl, calculateROI_invalid 0 20 1000 (Or.inl le_rfl)⟩

/-- C2: on every valid input the result fields equal the section-3 formulas
exactly: `downPayment = p*d/100`, `loanAmount = p - downPayment`,
`monthlyExpenses = p*0.01/12`, `monthlyCashFlow = rent - mortgage - expenses`,
`annualCashFlow = monthlyCashFlow*12`, `cashOnCashReturn` is
`annualCashFlow/downPayment*100` when `downPayment > 0` and `0` otherwise,
`capRate = (rent*12 - p*0.01)/p*100`, `onePercentRule = rent/p*100`. -/
theorem calculateROI_section3_formulas (p d m : ℚ) (hp : 0 < p) (hm : 0 < m) :
    ∃ r : CalculatorResult, calculateROI p d m = Except.ok r ∧
      r.downPayment = p * d / 100 ∧
      r.loanAmount = p - r.downPayment ∧
      r.monthlyMortgage = calculateMortgagePayment r.loanAmount 0.065 30 ∧
      r.monthlyExpenses = p * 0.01 / 12 ∧
      r.monthlyCashFlow = m - r.monthlyMortgage - r.monthlyExpenses ∧
      r.annualCashFlow = r.monthlyCashFlow * 12 ∧
      (0 < r.downPayment → r.cashOnCashReturn = r.annualCashFlow / r.downPayment * 100) ∧
      (¬ 0 < r.downPayment → r.cashOnCashReturn = 0) ∧
      r.capRate = (m * 12 - p * 0.01) / p * 100 ∧
      r.onePercentRule = m / p * 100 := by
  refine ⟨_, calculateROI_pos p d m hp hm, by ring, rfl, rfl, rfl, rfl, rfl, ?_, ?_, rfl, rfl⟩
  · intro h
    show (if 0 < p * (d / 100) then _ else (0 : ℚ)) = _
    rw [if_pos h]
  · intro h
    show (if 0 < p * (d / 100) then _ else (0 : ℚ)) = 0
    rw [if_neg h]

/-- Witness for C2 at `p = 300000`, `d = 20`, `m = 2000`. -/
theorem calculateROI_section3_formulas_witness :
    (0 : ℚ) < 300000 ∧ (0 : ℚ) < 2000 ∧
      ∃ r : CalculatorResult, calculateROI 300000 20 2000 = Except.ok r ∧
        r.downPayment = 300000 * 20 / 100 ∧
        r.loanAmount = 300000 - r.downPayment ∧
        r.monthlyMortgage = calculateMortgagePayment r.loanAmount 0.065 30 ∧
        r.monthlyExpenses = 300000 * 0.01 / 12 ∧
        r.monthlyCashFlow = 2000 - r.monthlyMortgage - r.monthlyExpenses ∧
        r.annualCashFlow = r.monthlyCashFlow * 12 ∧
        (0 < r.downPayment → r.cashOnCashReturn = r.annualCashFlow / r.downPayment * 100) ∧
        (¬ 0 < r.downPayment → r.cashOnCashReturn = 0) ∧
        r.capRate = (2000 * 12 - 300000 * 0.01) / 300000 * 100 ∧
        r.onePercentRule = 2000 / 300000 * 100 :=
  ⟨by norm_num, by norm_num,
    calculateROI_section3_formulas 300000 20 2000 (by norm_num) (by norm_num)⟩

/-- C3: `calculateMortgagePayment` returns `principal / (years*12)` when the
monthly rate `annualRate/12` is zero, and otherwise the closed amortization
formula `principal * monthlyRate * (1+monthlyRate)^n / ((1+monthlyRate)^n - 1)`
with `n = years*12`, with no rounding anywhere in the formula. -/
theorem calculateMortgagePayment_formula (principal annualRate : ℚ) (years : ℕ)
    (hr : 0 ≤ annualRate) (hy : 0 < years) :
    (annualRate / 12 = 0 →
      calculateMortgagePayment principal annualRate years =
        principal / ((years * 12 : ℕ) : ℚ)) ∧
    (annualRate / 12 ≠ 0 →
      calculateMortgagePayment principal annualRate years =
        principal * (annualRate / 12 * (1 + annualRate / 12) ^ (years * 12)) /
          ((1 + annualRate / 12) ^ (years * 12) - 1)) := by
  constructor <;> intro h <;> unfold calculateMortgagePayment
  · rw [if_pos h]
  · rw [if_neg h]

/-- Witness for C3: the zero-rate branch at `principal = 1200`, `years = 10`. -/
theorem calculateMortgagePayment_formula_witness :
    (0 : ℚ) ≤ 0 ∧ 0 < 10 ∧
      calculateMortgagePayment 1200 0 10 = 1200 / ((10 * 12 : ℕ) : ℚ) :=
  ⟨le_rfl, by norm_num,
    (calculateMortgagePayment_formula 1200 0 10 le_rfl (by norm_num)).1 (by norm_num)⟩

/-- C4: `getInvestmentGrade` agrees everywhere with the spec's ordered
decision chain (first match wins, inclusive `>=` thresholds), and the
boundary point `coc = 12`, `capRate = 8`, `cashFlow = 0` grades `Excellent`. -/
theorem getInvestmentGrade_spec_chain (coc capRate cashFlow : ℚ) :
    getInvestmentGrade coc capRate cashFlow = gradeInvestmentSpec coc capRate cashFlow ∧
    getInvestmentGrade 12 8 0 = Grade.excellent := by
  refine ⟨rfl, ?_⟩
  unfold getInvestmentGrade
  norm_num

/-- C8: `calculateROI` is deterministic: two calls on equal inputs return
equal results, every field and the grade included; the computation reads
nothing but its three arguments. -/
theorem calculateROI_deterministic (p₁ d₁ m₁ p₂ d₂ m₂ : ℚ)
    (hp : p₁ = p₂) (hd : d₁ = d₂) (hm : m₁ = m₂) :
    calculateROI p₁ d₁ m₁ = calculateROI p₂ d₂ m₂ ∧
    (calculateROI p₁ d₁ m₁).map CalculatorResult.grade =
      (calculateROI p₂ d₂ m₂).map CalculatorResult.grade := by
  subst hp
  subst hd
  subst hm
  exact ⟨rfl, rfl⟩

/-- Witness for C8 at the concrete scenario input. -/
theorem calculateROI_deterministic_witness :
    calculateROI 300000 20 2000 = calculateROI 300000 20 2000 ∧
      (calculateROI 300000 20 2000).map CalculatorResult.grade =
        (calculateROI 300000 20 2000).map CalculatorResult.grade :=
  calculateROI_deterministic 300000 20 2000 300000 20 2000 rfl rfl rfl

/-- C10: on every valid input the result satisfies
`capRate = 12 * onePercentRule - 1` (a consequence of the fixed 1% annual
expense rate). -/
theorem capRate_onePercentRule_relation (p d m : ℚ) (hp : 0 < p) (hm : 0 < m) :
    ∃ r : CalculatorResult, calculateROI p d m = Except.ok r ∧
      r.capRate = 12 * r.onePercentRule - 1 := by
  refine ⟨_, calculateROI_pos p d m hp hm, ?_⟩
  show (m * 12 - p * 0.01) / p * 100 = 12 * (m / p * 100) - 1
  field_simp
  ring

/-- Witness for C10 at `p = 300000`, `d = 20`, `m = 2000`. -/
theorem capRate_onePercentRule_relation_witness :
    (0 : ℚ) < 300000 ∧ (0 : ℚ) < 2000 ∧
      ∃ r : CalculatorResult, calculateROI 300000 20 2000 = Except.ok r ∧
        r.capRate = 12 * r.onePercentRule - 1 :=
  ⟨by norm_num, by norm_num,
    capRate_onePercentRule_relation 300000 20 2000 (by norm_num) (by norm_num)⟩

/-- C9: a supplied down-payment percent of exactly `0` is swallowed by the
`|| 20` defaulting, so the computation runs with `20`: the raw input `0`
gives the same output as the raw input `20`, the down payment stays positive,
and the `cashOnCashReturn = 0` fallback is not reached. -/
theorem downPaymentPercent_zero_defaults (p m : ℚ) (hp : 0 < p) (hm : 0 < m) :
    calculateROIRaw (some p) (some 0) (some m) =
      calculateROIRaw (some p) (some 20) (some m) ∧
    calculateROIRaw (some p) (some 0) (some m) = calculateROI p 20 m ∧
    ∃ r : CalculatorResult, calculateROIRaw (some p) (some 0) (some m) = Except.ok r ∧
      0 < r.downPayment ∧
      r.cashOnCashReturn = r.annualCashFlow / r.downPayment * 100 := by
  have hpe : jsOrDefault (some p) 0 = p := by
    show (if p = 0 then 0 else p) = p
    split
    · next h => exact h.symm
    · rfl
  have hme : jsOrDefault (some m) 0 = m := by
    show (if m = 0 then 0 else m) = m
    split
    · next h => exact h.symm
    · rfl
  have h0 : jsOrDefault (some 0) 20 = 20 := by
    show (if (0 : ℚ) = 0 then 20 else 0) = 20
    rw [if_pos rfl]
  have h20 : jsOrDefault (some 20) 20 = 20 := by
    show (if (20 : ℚ) = 0 then 20 else 20) = 20
    split <;> rfl
  have hdp : (0 : ℚ) < p * (20 / 100) := by positivity
  unfold calculateROIRaw
  rw [hpe, hme, h0, h20]
  refine ⟨rfl, rfl, _, calculateROI_pos p 20 m hp hm, hdp, ?_⟩
  show (if 0 < p * (20 / 100) then _ else (0 : ℚ)) = _
  rw [if_pos hdp]

/-- Witness for C9 at `p = 300000`, `m = 2000`. -/
theorem downPaymentPercent_zero_defaults_witness :
    (0 : ℚ) < 300000 ∧ (0 : ℚ) < 2000 ∧
      calculateROIRaw (some 300000) (some 0) (some 2000) =
        calculateROIRaw (some 300000) (some 20) (some 2000) :=
  ⟨by norm_num, by norm_num,
    (downPaymentPercent_zero_defaults 300000 2000 (by norm_num) (by norm_num)).1⟩

/-- C7: on a validated input the whole computation is total: `calculateROI`
returns a populated result, every divisor on the path is nonzero (the
divisions by `propertyPrice`, the guarded division by `downPayment`, the
nonzero monthly rate `0.065/12` and the amortization divisor
`(1+0.065/12)^360 - 1`), and an error is only ever signalled for an invalid
input. -/
theorem calculateROI_total (p d m : ℚ) (hp : 0 < p) (hm : 0 < m) :
    (∃ r : CalculatorResult, calculateROI p d m = Except.ok r) ∧
    p ≠ 0 ∧
    (0.065 : ℚ) / 12 ≠ 0 ∧
    (1 + (0.065 : ℚ) / 12) ^ (30 * 12 : ℕ) - 1 ≠ 0 ∧
    (0 < p * (d / 100) → p * (d / 100) ≠ 0) ∧
    (∀ q e n : ℚ, ∀ err : CalcError,
      calculateROI q e n = Except.error err → q ≤ 0 ∨ n ≤ 0) := by
  have hpow : (1 : ℚ) < (1 + 0.065 / 12) ^ (30 * 12 : ℕ) :=
    one_lt_pow₀ (by norm_num) (by norm_num)
  refine ⟨⟨_, calculateROI_pos p d m hp hm⟩, hp.ne', by norm_num,
    sub_ne_zero.mpr hpow.ne', fun h => h.ne', ?_⟩
  intro q e n err herr
  by_contra hcon
  push_neg at hcon
  rw [calculateROI_pos q e n hcon.1 hcon.2] at herr
  exact Except.noConfusion herr

/-- Witness for C7 at `p = 300000`, `d = 20`, `m = 2000`. -/
theorem calculateROI_total_witness :
    (0 : ℚ) < 300000 ∧ (0 : ℚ) < 2000 ∧
      ∃ r : CalculatorResult, calculateROI 300000 20 2000 = Except.ok r :=
  ⟨by norm_num, by norm_num,
    (calculateROI_total 300000 20 2000 (by norm_num) (by norm_num)).1⟩

/-- Closed form of the 6.5%/30yr payment branch on the scenario loan. -/
theorem mortgage_payment_closed :
    calculateMortgagePayment 240000 0.065 30 =
      240000 * (0.065 / 12 * (1 + 0.065 / 12) ^ (30 * 12 : ℕ)) /
        ((1 + 0.065 / 12) ^ (30 * 12 : ℕ) - 1) := by
  unfold calculateMortgagePayment
  rw [if_neg (by norm_num)]

/-- Tight bounds for the 6.5%/30yr payment on a 240000 loan. -/
theorem mortgage_payment_bounds :
    1516.9632 < calculateMortgagePayment 240000 0.065 30 ∧
      calculateMortgagePayment 240000 0.065 30 < 1516.9634 := by
  have hXlo : (6.991797 : ℚ) < (1 + (0.065 : ℚ) / 12) ^ (30 * 12 : ℕ) := by norm_num
  have hXhi : (1 + (0.065 : ℚ) / 12) ^ (30 * 12 : ℕ) < 6.991798 := by norm_num
  rw [mortgage_payment_closed]
  have hX1 : (0 : ℚ) < (1 + (0.065 : ℚ) / 12) ^ (30 * 12 : ℕ) - 1 := by linarith
  constructor
  · rw [lt_div_iff₀ hX1]
    nlinarith
  · rw [div_lt_iff₀ hX1]
    nlinarith

/-- C5 counterexample: on the scenario input the monthly mortgage is below
1517, hence not, as claimed, approximately 1517.44 (the true value is about
1516.96). -/
theorem roi_scenario_mortgage_counterexample :
    (calculateROI 300000 20 2000).map CalculatorResult.monthlyMortgage =
      Except.ok (calculateMortgagePayment 240000 0.065 30) ∧
    calculateMortgagePayment 240000 0.065 30 < 1517 := by
  constructor
  · rw [calculateROI_pos 300000 20 2000 (by norm_num) (by norm_num)]
    show Except.ok (calculateMortgagePayment (300000 - 300000 * (20 / 100)) 0.065 30) = _
    norm_num
  · linarith [mortgage_payment_bounds.2]

/-- C5 (amended): the scenario `propertyPrice = 300000`,
`downPaymentPercent = 20`, `monthlyRent = 2000` yields `downPayment = 60000`,
`loanAmount = 240000`, `monthlyMortgage ≈ 1516.96`, `monthlyExpenses = 250`,
`monthlyCashFlow ≈ 233.04`, `annualCashFlow ≈ 2796.44`,
`cashOnCashReturn ≈ 4.66`, `capRate = 7`, `onePercentRule ≈ 0.667` and
grade `BelowAverage`. -/
theorem roi_scenario_values :
    ∃ r : CalculatorResult, calculateROI 300000 20 2000 = Except.ok r ∧
      r.downPayment = 60000 ∧
      r.loanAmount = 240000 ∧
      |r.monthlyMortgage - 1516.96| < 0.005 ∧
      r.monthlyExpenses = 250 ∧
      |r.monthlyCashFlow - 233.04| < 0.005 ∧
      |r.annualCashFlow - 2796.44| < 0.005 ∧
      |r.cashOnCashReturn - 4.66| < 0.005 ∧
      r.capRate = 7 ∧
      |r.onePercentRule - 0.667| < 0.0005 ∧
      r.grade = Grade.belowAverage := by
  obtain ⟨hMlo, hMhi⟩ := mortgage_payment_bounds
  have harg : (300000 : ℚ) - 300000 * (20 / 100) = 240000 := by norm_num
  refine ⟨_, calculateROI_pos 300000 20 2000 (by norm_num) (by norm_num),
    by norm_num, by norm_num, ?_, by norm_num, ?_, ?_, ?_, by norm_num,
    by rw [abs_lt]; constructor <;> norm_num, ?_⟩
  · show |calculateMortgagePayment (300000 - 300000 * (20 / 100)) 0.065 30 - 1516.96| < 0.005
    rw [harg, abs_lt]
    constructor <;> linarith
  · show |2000 - calculateMortgagePayment (300000 - 300000 * (20 / 100)) 0.065 30 -
        300000 * 0.01 / 12 - 233.04| < 0.005
    rw [harg, abs_lt]
    constructor <;> (norm_num; linarith)
  · show |(2000 - calculateMortgagePayment (300000 - 300000 * (20 / 100)) 0.065 30 -
        300000 * 0.01 / 12) * 12 - 2796.44| < 0.005
    rw [harg, abs_lt]
    constructor <;> (norm_num; linarith)
  · show |(if (0 : ℚ) < 300000 * (20 / 100) then
        (2000 - calculateMortgagePayment (300000 - 300000 * (20 / 100)) 0.065 30 -
            300000 * 0.01 / 12) * 12 / (300000 * (20 / 100)) * 100
      else 0) - 4.66| < 0.005
    rw [if_pos (by norm_num), harg, abs_lt]
    constructor <;> (norm_num; linarith)
  · show getInvestmentGrade
        (if (0 : ℚ) < 300000 * (20 / 100) then
          (2000 - calculateMortgagePayment (300000 - 300000 * (20 / 100)) 0.065 30 -
              300000 * 0.01 / 12) * 12 / (300000 * (20 / 100)) * 100
        else 0)
        ((2000 * 12 - 300000 * 0.01) / 300000 * 100)
        (2000 - calculateMortgagePayment (300000 - 300000 * (20 / 100)) 0.065 30 -
          300000 * 0.01 / 12) = Grade.belowAverage
    rw [if_pos (by norm_num), harg]
    have hcoc : (2000 - calculateMortgagePayment 240000 0.065 30 -
        300000 * 0.01 / 12) * 12 / (300000 * (20 / 100)) * 100 < 5 := by
      rw [show (300000 : ℚ) * (20 / 100) = 60000 from by norm_num]
      rw [div_mul_eq_mul_div, div_lt_iff₀ (by norm_num : (0 : ℚ) < 60000)]
      nlinarith
    have hmcf : (0 : ℚ) ≤ 2000 - calculateMortgagePayment 240000 0.065 30 -
        300000 * 0.01 / 12 := by
      norm_num
      linarith
    unfold getInvestmentGrade
    rw [if_neg (not_lt.mpr hmcf), if_neg (by rintro ⟨h, -⟩; linarith),
      if_neg (by rintro ⟨h, -⟩; linarith), if_neg (by rintro ⟨h, -⟩; linarith)]

/-- Present value of an `n`-payment annuity of 1 at monthly rate `x`; the
amortization formula of `calculateMortgagePayment` is `principal` divided by
this factor, which is how the rate-monotonicity is proved. -/
def annuityFactor (x : ℚ) (n : ℕ) : ℚ :=
  ∑ k in Finset.range n, ((1 + x)⁻¹) ^ (k + 1)

/-- At rate zero the annuity factor is just the number of payments. -/
theorem annuityFactor_zero_rate (n : ℕ) : annuityFactor 0 n = n := by
  unfold annuityFactor
  simp

/-- Closed form of the annuity factor at a positive rate. -/
theorem annuityFactor_eval (x : ℚ) (n : ℕ) (hx : 0 < x) :
    annuityFactor x n = ((1 + x) ^ n - 1) / (x * (1 + x) ^ n) := by
  have h1 : (0 : ℚ) < 1 + x := by linarith
  have h1e : (1 : ℚ) + x ≠ 0 := h1.ne'
  have hxe : x ≠ 0 := hx.ne'
  induction n with
  | zero => simp [annuityFactor]
  | succ n ih =>
    have hpn : (1 + x) ^ n ≠ 0 := pow_ne_zero _ h1e
    rw [annuityFactor, Finset.sum_range_succ, ← annuityFactor, ih]
    field_simp
    ring

/-- The annuity factor is positive for a nonnegative rate and at least one
payment. -/
theorem annuityFactor_pos (x : ℚ) (n : ℕ) (hx : 0 ≤ x) (hn : 0 < n) :
    0 < annuityFactor x n := by
  have h1 : (0 : ℚ) < 1 + x := by linarith
  unfold annuityFactor
  apply Finset.sum_pos
  · intro k _
    exact pow_pos (inv_pos.mpr h1) _
  · exact Finset.nonempty_range_iff.mpr hn.ne'

/-- The annuity factor strictly decreases as the rate increases. -/
theorem annuityFactor_strict_anti (a b : ℚ) (n : ℕ)
    (ha : 0 ≤ a) (hab : a < b) (hn : 0 < n) :
    annuityFactor b n < annuityFactor a n := by
  have ha1 : (0 : ℚ) < 1 + a := by linarith
  have hb1 : (0 : ℚ) < 1 + b := by linarith
  unfold annuityFactor
  apply Finset.sum_lt_sum_of_nonempty (Finset.nonempty_range_iff.mpr hn.ne')
  intro k _
  exact pow_lt_pow_left₀ (inv_strictAnti₀ ha1 (by linarith))
    (inv_pos.mpr hb1).le (Nat.succ_ne_zero k)

/-- `calculateMortgagePayment` is the principal divided by the annuity
factor, in the zero-rate branch as well as in the amortization branch. -/
theorem calculateMortgagePayment_eq_div_annuity (p r : ℚ) (y : ℕ)
    (hr : 0 ≤ r) (hy : 0 < y) :
    calculateMortgagePayment p r y = p / annuityFactor (r / 12) (y * 12) := by
  unfold calculateMortgagePayment
  by_cases h : r / 12 = 0
  · rw [if_pos h, h, annuityFactor_zero_rate]
  · rw [if_neg h]
    have hx : 0 < r / 12 :=
      lt_of_le_of_ne (div_nonneg hr (by norm_num)) (Ne.symm h)
    rw [annuityFactor_eval _ _ hx, div_div_eq_mul_div]

/-- C6 counterexample: the payment is not monotone in the rate over all
rates: at `principal = 1`, `years = 1` the rate `-36` (monthly rate `-3`)
pays more than the larger rate `-25.2` (monthly rate `-2.1`); and at
`principal = 0` the payment is constant, so strictness also fails. -/
theorem mortgage_rate_monotonicity_counterexample :
    (-36 : ℚ) < -25.2 ∧
    ¬ calculateMortgagePayment 1 (-36) 1 < calculateMortgagePayment 1 (-25.2) 1 ∧
    calculateMortgagePayment 0 0 1 = calculateMortgagePayment 0 12 1 := by
  refine ⟨by norm_num, ?_, ?_⟩ <;> norm_num [calculateMortgagePayment]

/-- C6 (amended): for a positive principal, a positive term and nonnegative
rates, `calculateMortgagePayment` is strictly increasing in the annual rate. -/
theorem calculateMortgagePayment_strictMono (principal : ℚ) (years : ℕ) (r₁ r₂ : ℚ)
    (hp : 0 < principal) (hy : 0 < years) (h0 : 0 ≤ r₁) (h12 : r₁ < r₂) :
    calculateMortgagePayment principal r₁ years <
      calculateMortgagePayment principal r₂ years := by
  rw [calculateMortgagePayment_eq_div_annuity principal r₁ years h0 hy,
    calculateMortgagePayment_eq_div_annuity principal r₂ years (h0.trans h12.le) hy]
  have hn : 0 < years * 12 := Nat.mul_pos hy (by norm_num)
  have hx1 : 0 ≤ r₁ / 12 := by positivity
  have hxlt : r₁ / 12 < r₂ / 12 := by linarith
  have hS2 : 0 < annuityFactor (r₂ / 12) (years * 12) :=
    annuityFactor_pos _ _ (hx1.trans hxlt.le) hn
  have hanti : annuityFactor (r₂ / 12) (years * 12) <
      annuityFactor (r₁ / 12) (years * 12) :=
    annuityFactor_strict_anti _ _ _ hx1 hxlt hn
  exact div_lt_div_of_pos_left hp hS2 hanti

/-- Witness for C6 (amended) at `principal = 1`, `years = 1`, rates `0 < 12`. -/
theorem calculateMortgagePayment_strictMono_witness :
    (0 : ℚ) < 1 ∧ (0 : ℚ) ≤ 0 ∧ (0 : ℚ) < 12 ∧
      calculateMortgagePayment 1 0 1 < calculateMortgagePayment 1 12 1 :=
  ⟨by norm_num, le_rfl, by norm_num,
    calculateMortgagePayment_strictMono 1 1 0 12 (by norm_num) (by norm_num)
      le_rfl (by norm_num)⟩

end InvestmentCalculator
